import Mathlib

/-!
Shallow embedding of the typing-test backend (src/main.py) and the parts of
its persistence adapter and schema that the spec describes.

Conventions of the embedding:
- Python floats carry no arithmetic here beyond identity coercion, so they are
  modelled as rationals, which makes value round-trips exact, as they are for
  the stored BSON doubles.
- Timestamps are natural numbers; the server clock is passed explicitly as a
  `now` argument.
- An HTTP handler that can raise `HTTPException` is modelled as returning
  `Except HTTPException result`; the mutating POST handler additionally
  returns the database state after the call.
-/

namespace TypingBackend

/-- Timestamps (datetime values) are modelled as natural numbers. -/
abbrev Time := Nat

/-- JSON-ish value appearing in a raw request body field. -/
inductive Value where
  | num (q : ℚ)
  | str (s : String)
  | bool (b : Bool)
  | null
  deriving DecidableEq

/-- Digit-list test used by the numeric-string coercion model. -/
def allDigits (cs : List Char) : Bool :=
  !cs.isEmpty && cs.all Char.isDigit

/-- Numeric value of a list of digit characters. -/
def digitsVal (cs : List Char) : Nat :=
  cs.foldl (fun a c => a * 10 + (c.toNat - 48)) 0

/-- Splits a character list at each dot. -/
def splitDots : List Char → List (List Char)
  | [] => [[]]
  | c :: rest =>
    if c = '.' then [] :: splitDots rest
    else
      match splitDots rest with
      | [] => [[c]]
      | seg :: segs => (c :: seg) :: segs

/-- Unsigned decimal parse: digits optionally followed by a dot and digits. -/
def parseUnsignedChars (cs : List Char) : Option ℚ :=
  match splitDots cs with
  | [w] => if allDigits w then some (digitsVal w) else none
  | [w, f] =>
    if allDigits w && allDigits f then
      some ((digitsVal w : ℚ) + (digitsVal f : ℚ) / ((10 : ℚ) ^ f.length))
    else none
  | _ => none

/-- Signed decimal parse for numeric strings. -/
def parseDecimal (s : String) : Option ℚ :=
  match s.data with
  | '-' :: rest => (parseUnsignedChars rest).map Neg.neg
  | '+' :: rest => parseUnsignedChars rest
  | cs => parseUnsignedChars cs

/-- Modelled from the spec: lax coercion of a body field to a float
(spec section 4.2, validation policy; the pydantic layer is outside src).
A number passes through unchanged, a numeric string is parsed, anything
else (missing, null, bool, non-numeric string) cannot be coerced. -/
def coerceFloat : Option Value → Option ℚ
  | some (.num q) => some q
  | some (.str s) => parseDecimal s
  | _ => none

/-- Modelled from the spec: lax coercion of a body field to an integer
(spec section 4.2). A number is accepted when integral; a numeric string
likewise. -/
def coerceInt : Option Value → Option Int
  | some (.num q) => if q.den = 1 then some q.num else none
  | some (.str s) =>
    match parseDecimal s with
    | some q => if q.den = 1 then some q.num else none
    | none => none
  | _ => none

/-- Modelled from the spec: coercion of the optional `user_id` field; missing
or null means anonymous, a string is kept, anything else is rejected. -/
def coerceOptStr : Option Value → Option (Option String)
  | none => some none
  | some .null => some none
  | some (.str s) => some (some s)
  | _ => none

/-- Modelled from the spec: schemas.TypingResult (spec section 3; schemas.py
is not under src). Fields: wpm and accuracy are floats, mistakes and
duration are integers. -/
structure TypingResult where
  wpm : ℚ
  accuracy : ℚ
  mistakes : Int
  duration : Int
  deriving DecidableEq

/-- Request model of src/main.py lines 65-66: TypingResult plus an optional
`user_id`. -/
structure SaveResultRequest extends TypingResult where
  user_id : Option String := none
  deriving DecidableEq

/-- Response model of src/main.py lines 68-70. -/
structure SaveResultResponse where
  id : String
  status : String
  deriving DecidableEq

/-- Response model of src/main.py lines 72-77. -/
structure ResultRecord where
  wpm : ℚ
  accuracy : ℚ
  mistakes : Int
  duration : Int
  created_at : Time
  deriving DecidableEq

/-- Raw JSON body of a POST request, before validation; every field may be
missing. A client may also send a `created_at` field, which the schema does
not declare and the validation layer ignores. -/
structure RawBody where
  wpm : Option Value := none
  accuracy : Option Value := none
  mistakes : Option Value := none
  duration : Option Value := none
  user_id : Option Value := none
  created_at : Option Value := none

/-- Stored document of the `typingresult` collection (spec section 6,
persisted layout); documents read back may miss any field, which models
historical or partially written records. -/
structure Doc where
  wpm : Option ℚ := none
  accuracy : Option ℚ := none
  mistakes : Option Int := none
  duration : Option Int := none
  user_id : Option String := none
  created_at : Option Time := none
  deriving DecidableEq

/-- Modelled from the spec: the state of the connected database handle `db`
(database.py is not under src). `name` is the database name when the handle
has one (hasattr check at src/main.py line 45); `list_collection_names` is
the outcome of listing collection names, which may raise; `docs` is the
content of the `typingresult` collection; `insertError` and `queryError`,
when set, are the exceptions insert and query raise (StorageError
conditions in spec section 7). -/
structure DBConn where
  name : Option String := none
  list_collection_names : Except String (List String) := .ok []
  docs : List Doc := []
  insertError : Option String := none
  queryError : Option String := none

/-- Modelled from the spec: database.create_document (spec section 4.1,
insert). Appends one document to the collection and returns a fresh,
non-empty string identifier, or fails with the storage error. -/
def create_document (conn : DBConn) (collection : String) (data : Doc) :
    Except String (String × DBConn) :=
  match conn.insertError with
  | some e => .error e
  | none =>
    .ok ("doc" ++ toString conn.docs.length,
         { conn with docs := conn.docs ++ [data] })

/-- Modelled from the spec: database.get_documents (spec section 4.1, query).
Returns the documents matching the filter, truncated to at most `limit`
entries, in insertion order, or fails with the storage error. -/
def get_documents (conn : DBConn) (collection : String)
    (filter : Doc → Bool) (limit : Int) : Except String (List Doc) :=
  match conn.queryError with
  | some e => .error e
  | none => .ok ((conn.docs.filter filter).take limit.toNat)

/-- FastAPI HTTPException, as raised at src/main.py lines 83, 94, 100, 117. -/
structure HTTPException where
  status_code : Nat
  detail : String
  deriving DecidableEq

/-- Handler of POST /api/results, src/main.py lines 79-94: reject when the
database handle is absent, stamp the server timestamp, insert into the
`typingresult` collection, and surface an insert failure as a 500 whose
detail is str(e). The database state after the call is returned alongside
the response. -/
def save_result (db : Option DBConn) (payload : SaveResultRequest)
    (now : Time) :
    Except HTTPException SaveResultResponse × Option DBConn :=
  match db with
  | none => (.error ⟨500, "Database not configured"⟩, none)
  | some conn =>
    let data : Doc :=
      { wpm := some payload.wpm, accuracy := some payload.accuracy,
        mistakes := some payload.mistakes, duration := some payload.duration,
        user_id := payload.user_id, created_at := some now }
    match create_document conn "typingresult" data with
    | .ok (inserted_id, conn2) => (.ok ⟨inserted_id, "ok"⟩, some conn2)
    | .error e => (.error ⟨500, e⟩, some conn)

/-- Modelled from the spec: the validation the framework applies to the raw
body before save_result runs (spec section 4.2, validation policy). Each
declared field is coerced to its declared type; a value that cannot be
coerced yields a field-specific validation error. The undeclared
`created_at` field of the body is ignored. -/
def parseSaveResultRequest (body : RawBody) :
    Except String SaveResultRequest :=
  match coerceFloat body.wpm with
  | none => .error "wpm: value is not a valid number"
  | some w =>
  match coerceFloat body.accuracy with
  | none => .error "accuracy: value is not a valid number"
  | some a =>
  match coerceInt body.mistakes with
  | none => .error "mistakes: value is not a valid integer"
  | some m =>
  match coerceInt body.duration with
  | none => .error "duration: value is not a valid integer"
  | some dur =>
  match coerceOptStr body.user_id with
  | none => .error "user_id: value is not a valid string"
  | some u => .ok ⟨⟨w, a, m, dur⟩, u⟩

/-- POST /api/results as seen by a client: framework validation first (a
failure is a 422 rejection that never reaches storage), then the handler. -/
def postResults (db : Option DBConn) (body : RawBody) (now : Time) :
    Except HTTPException SaveResultResponse × Option DBConn :=
  match parseSaveResultRequest body with
  | .error msg => (.error ⟨422, msg⟩, db)
  | .ok payload => save_result db payload now

/-- Normalization of one stored document at src/main.py lines 106-112:
missing wpm, accuracy and mistakes default to 0, missing duration to 60,
missing created_at to the current time. -/
def normalizeDoc (now : Time) (d : Doc) : ResultRecord :=
  { wpm := d.wpm.getD 0, accuracy := d.accuracy.getD 0,
    mistakes := d.mistakes.getD 0, duration := d.duration.getD 60,
    created_at := d.created_at.getD now }

/-- Sort key comparison of src/main.py line 114: ascending created_at. -/
def byCreatedAt (a b : ResultRecord) : Bool :=
  a.created_at ≤ b.created_at

/-- Handler of GET /api/results, src/main.py lines 96-117: reject when the
database handle is absent, fetch up to `limit` documents, normalize each,
sort ascending by created_at, and surface a fetch failure as a 500 whose
detail is str(e). -/
def list_results (db : Option DBConn) (now : Time) (limit : Int := 50) :
    Except HTTPException (List ResultRecord) :=
  match db with
  | none => .error ⟨500, "Database not configured"⟩
  | some conn =>
    match get_documents conn "typingresult" (fun _ => true) limit with
    | .error e => .error ⟨500, e⟩
    | .ok docs => .ok ((docs.map (normalizeDoc now)).mergeSort byCreatedAt)

/-- Response object of GET /test, src/main.py lines 32-39. -/
structure TestResponse where
  backend : String
  database : String
  database_url : Option String
  database_name : Option String
  connection_status : String
  collections : List String
  deriving DecidableEq

/-- Handler of GET /test, src/main.py lines 29-62. The two boolean arguments
state whether the DATABASE_URL and DATABASE_NAME environment variables are
set. The handler never raises: a collection-listing failure is rendered
inline into the `database` field, truncated to 50 characters, and the
`database_url` and `database_name` fields are unconditionally overwritten
from the environment flags just before returning. -/
def test_database (db : Option DBConn)
    (env_DATABASE_URL : Bool) (env_DATABASE_NAME : Bool) : TestResponse :=
  let response : TestResponse :=
    { backend := "✅ Running", database := "❌ Not Available",
      database_url := none, database_name := none,
      connection_status := "Not Connected", collections := [] }
  let response :=
    match db with
    | some conn =>
      let response :=
        { response with
          database := "✅ Available",
          database_url :=
            some (if env_DATABASE_URL then "✅ Set" else "❌ Not Set"),
          database_name := some (conn.name.getD "✅ Connected"),
          connection_status := "Connected" }
      match conn.list_collection_names with
      | .ok collections =>
        { response with collections := collections.take 10,
                        database := "✅ Connected & Working" }
      | .error e =>
        { response with database := "⚠️  Connected but Error: " ++ e.take 50 }
    | none => { response with database := "⚠️  Available but not initialized" }
  { response with
    database_url := some (if env_DATABASE_URL then "✅ Set" else "❌ Not Set"),
    database_name :=
      some (if env_DATABASE_NAME then "✅ Set" else "❌ Not Set") }

/-- Serialization of a ResultRecord by the response model declared at
src/main.py lines 72-77 and 96: exactly the five declared fields are
rendered. -/
def ResultRecord.toJson (r : ResultRecord) : List (String × Value) :=
  [("wpm", .num r.wpm), ("accuracy", .num r.accuracy),
   ("mistakes", .num r.mistakes), ("duration", .num r.duration),
   ("created_at", .num r.created_at)]

/-- Number of records stored behind a database handle. -/
def recordCount : Option DBConn → Nat
  | none => 0
  | some conn => conn.docs.length

/-- Body whose wpm field holds a non-numeric string. -/
def badWpmBody : RawBody := { wpm := some (.str "abc") }

/-- Database state holding one stored record. -/
def oneDocConn : DBConn := { docs := [{}] }

/-- Body carrying a client-chosen created_at value of 999. -/
def clientStampBody : RawBody :=
  { wpm := some (.num 1), accuracy := some (.num 2),
    mistakes := some (.num 3), duration := some (.num 4),
    created_at := some (.num 999) }

/-- Document as persisted from clientStampBody at server time 5. -/
def storedDoc5 : Doc :=
  { wpm := some 1, accuracy := some 2, mistakes := some 3,
    duration := some 4, user_id := none, created_at := some 5 }

/-- Storage error message longer than 50 characters, for the C8 analysis. -/
def longStorageError : String :=
  "connection refused: could not reach database server at host port 27017"

/-- Database state whose insert and query both raise. -/
def failingConn : DBConn :=
  { queryError := some "qfail", insertError := some "ifail" }

/-- Document built from a validated payload and the server timestamp, as
save_result persists it. -/
def docOfPayload (payload : SaveResultRequest) (now : Time) : Doc :=
  { wpm := some payload.wpm, accuracy := some payload.accuracy,
    mistakes := some payload.mistakes, duration := some payload.duration,
    user_id := payload.user_id, created_at := some now }

/-- Healthy database state holding no records. -/
def emptyConn : DBConn := {}

/-- Database state holding one document with every field missing. -/
def bareDocConn : DBConn := { docs := [{}] }

/-- Database state with two bare documents, for the C3 witness. -/
def twoDocConn : DBConn := { docs := [{}, {}] }

/-- Fully populated stored document carrying a user identifier. -/
def userDoc : Doc :=
  { wpm := some 1, accuracy := some 2, mistakes := some 3,
    duration := some 4, user_id := some "alice", created_at := some 5 }

/-- Database state holding one fully populated document carrying a user
identifier, for the C9 analysis. -/
def userDocConn : DBConn := { docs := [userDoc] }

/-! Helper lemmas shared by the claim theorems. -/

/-- Evaluation of list_results on a connected handle whose query succeeds. -/
theorem list_results_ok (conn : DBConn) (now : Time) (limit : Int)
    (hq : conn.queryError = none) :
    list_results (some conn) now limit =
      .ok (((conn.docs.take limit.toNat).map (normalizeDoc now)).mergeSort
        byCreatedAt) := by
  simp [list_results, get_documents, hq]

/-- Sorting with byCreatedAt yields a list pairwise non-decreasing in
created_at. -/
theorem mergeSort_byCreatedAt_pairwise (l : List ResultRecord) :
    (l.mergeSort byCreatedAt).Pairwise
      (fun a b => a.created_at ≤ b.created_at) := by
  have htrans : ∀ a b c : ResultRecord,
      byCreatedAt a b → byCreatedAt b c → byCreatedAt a c := by
    intro a b c hab hbc
    simp only [byCreatedAt, decide_eq_true_eq] at *
    exact le_trans hab hbc
  have htotal : ∀ a b : ResultRecord, byCreatedAt a b || byCreatedAt b a := by
    intro a b
    simp only [byCreatedAt, Bool.or_eq_true, decide_eq_true_eq]
    exact le_total _ _
  exact (List.sorted_mergeSort htrans htotal l).imp
    (fun hab => by simpa [byCreatedAt] using hab)

/-! Claim theorems. -/

/-- C2: a POST body whose wpm cannot be coerced to a number is rejected with
a 4xx validation error naming the field, before any storage call, and the
stored record count is unchanged. -/
theorem nonnumeric_wpm_rejected (db : Option DBConn) (body : RawBody)
    (now : Time) (h : coerceFloat body.wpm = none) :
    ∃ e, (postResults db body now).1 = .error e ∧
      400 ≤ e.status_code ∧ e.status_code < 500 ∧
      (postResults db body now).2 = db ∧
      recordCount (postResults db body now).2 = recordCount db := by
  have hp : parseSaveResultRequest body =
      .error "wpm: value is not a valid number" := by
    simp only [parseSaveResultRequest, h]
  refine ⟨⟨422, "wpm: value is not a valid number"⟩, ?_, by norm_num,
    by norm_num, ?_, ?_⟩ <;> simp [postResults, hp]

/-- C2 witness: the non-numeric string wpm value is rejected at a concrete
database state holding one record. -/
theorem nonnumeric_wpm_rejected_witness :
    coerceFloat badWpmBody.wpm = none ∧
    (∃ e, (postResults (some oneDocConn) badWpmBody 0).1 = .error e ∧
      400 ≤ e.status_code ∧ e.status_code < 500 ∧
      (postResults (some oneDocConn) badWpmBody 0).2 = some oneDocConn ∧
      recordCount (postResults (some oneDocConn) badWpmBody 0).2 =
        recordCount (some oneDocConn)) :=
  ⟨by decide, nonnumeric_wpm_rejected (some oneDocConn) badWpmBody 0
    (by decide)⟩

/-- C3: GET /api/results with limit N returns at most N records for every
N that is at least 0, and an omitted limit means limit 50. -/
theorem list_results_limit_bound (db : Option DBConn) (now : Time) (N : Int)
    (l : List ResultRecord) (hN : 0 ≤ N)
    (h : list_results db now N = .ok l) :
    (l.length : Int) ≤ N ∧
    ∀ (db2 : Option DBConn) (now2 : Time),
      list_results db2 now2 = list_results db2 now2 50 := by
  refine ⟨?_, fun db2 now2 => rfl⟩
  cases db with
  | none => simp [list_results] at h
  | some conn =>
    cases hq : conn.queryError with
    | some e => simp [list_results, get_documents, hq] at h
    | none =>
      rw [list_results_ok _ _ _ hq] at h
      simp only [Except.ok.injEq] at h
      have h2 : l.length ≤ N.toNat := by
        rw [← h, (List.mergeSort_perm _ _).length_eq, List.length_map]
        exact List.length_take_le _ _
      omega

/-- C5: whatever the raw POST body contains, including a client-supplied
created_at value, a successful POST persists exactly one new document and
its created_at is the server timestamp. -/
theorem created_at_server_assigned (conn : DBConn) (body : RawBody)
    (now : Time) (resp : SaveResultResponse) (db2 : Option DBConn)
    (h : postResults (some conn) body now = (.ok resp, db2)) :
    ∃ conn2 d, db2 = some conn2 ∧ conn2.docs = conn.docs ++ [d] ∧
      d.created_at = some now := by
  rw [postResults] at h
  cases hp : parseSaveResultRequest body with
  | error msg => rw [hp] at h; simp at h
  | ok payload =>
    rw [hp] at h
    simp only [save_result] at h
    cases hcd : create_document conn "typingresult"
        { wpm := some payload.wpm, accuracy := some payload.accuracy,
          mistakes := some payload.mistakes,
          duration := some payload.duration,
          user_id := payload.user_id, created_at := some now } with
    | error e => rw [hcd] at h; simp at h
    | ok pr =>
      obtain ⟨id1, conn2⟩ := pr
      rw [hcd] at h
      simp only [Prod.mk.injEq, Except.ok.injEq] at h
      obtain ⟨-, rfl⟩ := h
      rw [create_document] at hcd
      cases hie : conn.insertError with
      | some e => rw [hie] at hcd; simp at hcd
      | none =>
        rw [hie] at hcd
        simp only [Except.ok.injEq, Prod.mk.injEq] at hcd
        obtain ⟨-, rfl⟩ := hcd
        exact ⟨_, _, rfl, rfl, rfl⟩

/-- C5 witness: a body carrying a client created_at of 999 is persisted with
the server timestamp 5. -/
theorem created_at_server_assigned_witness :
    postResults (some {}) clientStampBody 5 =
      (.ok ⟨"doc0", "ok"⟩, some { docs := [storedDoc5] }) ∧
    (∃ conn2 d,
      (some { docs := [storedDoc5] } : Option DBConn) = some conn2 ∧
      conn2.docs = ({} : DBConn).docs ++ [d] ∧ d.created_at = some 5) :=
  ⟨rfl, created_at_server_assigned {} clientStampBody 5 ⟨"doc0", "ok"⟩
    (some { docs := [storedDoc5] }) rfl⟩

/-- C6 counterexample: with an absent database handle, the database field of
the GET /test response is the string that literally reports the database as
available but not initialized, not the unavailable marker of the handler. -/
theorem test_db_none_not_reported_unavailable :
    (test_database none false false).database =
      "⚠️  Available but not initialized" ∧
    (test_database none false false).database ≠ "❌ Not Available" ∧
    (test_database none false false).connection_status = "Not Connected" :=
  ⟨rfl, by decide, rfl⟩

/-- C6 amended: with an absent database handle, POST and GET on /api/results
both fail with a 500 carrying a non-empty message, while GET /test still
succeeds and reports the database as available but not initialized. -/
theorem unconfigured_db_responses (payload : SaveResultRequest) (now : Time)
    (limit : Int) (u n : Bool) :
    (save_result none payload now).1 =
      .error ⟨500, "Database not configured"⟩ ∧
    list_results none now limit = .error ⟨500, "Database not configured"⟩ ∧
    "Database not configured" ≠ "" ∧
    (test_database none u n).backend = "✅ Running" ∧
    (test_database none u n).database = "⚠️  Available but not initialized" :=
  ⟨rfl, rfl, by decide, rfl, rfl⟩

/-- C7: GET /test always answers, with the backend reported running, at most
10 collection names, and a collection-listing failure rendered inline into
the database field, truncated to 50 characters. -/
theorem test_database_never_fails (db : Option DBConn) (u n : Bool) :
    (test_database db u n).backend = "✅ Running" ∧
    (test_database db u n).collections.length ≤ 10 ∧
    ∀ (conn : DBConn) (e : String), db = some conn →
      conn.list_collection_names = .error e →
      (test_database db u n).database =
        "⚠️  Connected but Error: " ++ e.take 50 := by
  cases db with
  | none =>
    refine ⟨rfl, by simp [test_database], ?_⟩
    intro conn e hdb
    simp at hdb
  | some conn =>
    cases hc : conn.list_collection_names with
    | ok cols =>
      refine ⟨by simp [test_database, hc], ?_, ?_⟩
      · simp only [test_database, hc, List.length_take]
        exact min_le_left _ _
      · intro conn2 e hdb hlcn
        injection hdb with h1
        subst h1
        rw [hc] at hlcn
        simp at hlcn
    | error e0 =>
      refine ⟨by simp [test_database, hc], ?_, ?_⟩
      · simp [test_database, hc]
      · intro conn2 e hdb hlcn
        injection hdb with h1
        subst h1
        rw [hc] at hlcn
        injection hlcn with h2
        subst h2
        simp [test_database, hc]

/-- C7 witness: a handle whose collection listing raises is rendered inline. -/
theorem test_database_never_fails_witness :
    (test_database (some { list_collection_names := .error "boom" })
        false false).database =
      "⚠️  Connected but Error: " ++ "boom".take 50 :=
  (test_database_never_fails
    (some { list_collection_names := .error "boom" }) false false).2.2
    _ "boom" rfl rfl

set_option maxRecDepth 4000 in
/-- C8 counterexample: a fetch failure surfaces its description in full,
untruncated, in the 500 response: the detail is the whole message, whose
length exceeds the 50-character truncation bound the handler uses for
inline diagnostics. -/
theorem storage_error_detail_untruncated :
    list_results (some { queryError := some longStorageError }) 0 50 =
      .error ⟨500, longStorageError⟩ ∧
    50 < longStorageError.length :=
  ⟨rfl, by decide⟩

/-- C8 amended: a storage failure during POST or GET surfaces as a 500 whose
detail is the full, untruncated description of the underlying failure. -/
theorem storage_error_full_detail (conn : DBConn) (now : Time) (limit : Int)
    (payload : SaveResultRequest) :
    (∀ e, conn.queryError = some e →
      list_results (some conn) now limit = .error ⟨500, e⟩) ∧
    (∀ e, conn.insertError = some e →
      (save_result (some conn) payload now).1 = .error ⟨500, e⟩) := by
  constructor <;> intro e he <;>
    simp [list_results, get_documents, save_result, create_document, he]

/-- C8 amended witness: concrete failing insert and query surface their full
messages. -/
theorem storage_error_full_detail_witness :
    failingConn.queryError = some "qfail" ∧
    failingConn.insertError = some "ifail" ∧
    list_results (some failingConn) 0 3 = .error ⟨500, "qfail"⟩ ∧
    (save_result (some failingConn) ⟨⟨1, 1, 1, 1⟩, none⟩ 0).1 =
      .error ⟨500, "ifail"⟩ :=
  ⟨rfl, rfl,
    (storage_error_full_detail failingConn 0 3 ⟨⟨1, 1, 1, 1⟩, none⟩).1
      "qfail" rfl,
    (storage_error_full_detail failingConn 0 3 ⟨⟨1, 1, 1, 1⟩, none⟩).2
      "ifail" rfl⟩

/-- Evaluation of save_result on a connected handle whose insert succeeds. -/
theorem save_result_ok (conn : DBConn) (payload : SaveResultRequest)
    (now : Time) (hins : conn.insertError = none) :
    save_result (some conn) payload now =
      (.ok ⟨"doc" ++ toString conn.docs.length, "ok"⟩,
       some { conn with docs := conn.docs ++ [docOfPayload payload now] }) := by
  simp [save_result, create_document, hins, docOfPayload]

/-- C1: posting any valid payload to a healthy store succeeds with a
non-empty id and status ok, and a later fetch with a sufficient limit
returns a record whose numeric fields equal the posted values exactly. -/
theorem save_then_list_roundtrip (conn : DBConn)
    (payload : SaveResultRequest) (now now2 : Time) (limit : Int)
    (hins : conn.insertError = none) (hq : conn.queryError = none)
    (hlim : (conn.docs.length : Int) + 1 ≤ limit) :
    ∃ resp conn2,
      save_result (some conn) payload now = (.ok resp, some conn2) ∧
      resp.id ≠ "" ∧ resp.status = "ok" ∧
      ∃ l, list_results (some conn2) now2 limit = .ok l ∧
        ∃ r ∈ l, r.wpm = payload.wpm ∧ r.accuracy = payload.accuracy ∧
          r.mistakes = payload.mistakes ∧ r.duration = payload.duration := by
  rw [save_result_ok conn payload now hins]
  refine ⟨_, _, rfl, ?_, rfl, ?_⟩
  · show ("doc" ++ toString conn.docs.length) ≠ ""
    intro hmt
    have h2 := congrArg String.length hmt
    have h3 : ("doc" ++ toString conn.docs.length).length =
        "doc".length + (toString conn.docs.length).length :=
      String.length_append _ _
    have h4 : "doc".length = 3 := rfl
    have h5 : ("" : String).length = 0 := rfl
    omega
  · have hlen : (conn.docs ++ [docOfPayload payload now]).length ≤
        limit.toNat := by
      simp only [List.length_append, List.length_singleton]
      omega
    refine ⟨_, list_results_ok _ now2 limit hq, ?_⟩
    rw [List.take_of_length_le hlen]
    refine ⟨normalizeDoc now2 (docOfPayload payload now), ?_, rfl, rfl,
      rfl, rfl⟩
    rw [(List.mergeSort_perm _ _).mem_iff]
    exact List.mem_map_of_mem _ (by simp)

/-- C1 witness: the spec scenario payload posted at server time 5 and
fetched at limit 50. -/
theorem save_then_list_roundtrip_witness :
    emptyConn.insertError = none ∧ emptyConn.queryError = none ∧
    (emptyConn.docs.length : Int) + 1 ≤ 50 ∧
    (∃ resp conn2,
      save_result (some emptyConn) ⟨⟨171 / 2, 486 / 5, 3, 60⟩, none⟩ 5 =
        (.ok resp, some conn2) ∧
      resp.id ≠ "" ∧ resp.status = "ok" ∧
      ∃ l, list_results (some conn2) 6 50 = .ok l ∧
        ∃ r ∈ l, r.wpm = (171 / 2 : ℚ) ∧ r.accuracy = (486 / 5 : ℚ) ∧
          r.mistakes = 3 ∧ r.duration = 60) :=
  ⟨rfl, rfl, by decide,
    save_then_list_roundtrip emptyConn ⟨⟨171 / 2, 486 / 5, 3, 60⟩, none⟩
      5 6 50 rfl rfl (by decide)⟩

/-- C4: fetching from a healthy store never fails on documents with missing
fields; each fetched document is rendered with its missing fields
defaulted (wpm, accuracy, mistakes to 0, duration to 60, created_at to the
current time) and the returned records are pairwise non-decreasing by
created_at. -/
theorem list_results_lenient_and_sorted (conn : DBConn) (now : Time)
    (limit : Int) (hq : conn.queryError = none) :
    ∃ l, list_results (some conn) now limit = .ok l ∧
      l.Pairwise (fun a b => a.created_at ≤ b.created_at) ∧
      ∀ d ∈ conn.docs.take limit.toNat, ∃ r ∈ l,
        (d.wpm = none → r.wpm = 0) ∧
        (d.accuracy = none → r.accuracy = 0) ∧
        (d.mistakes = none → r.mistakes = 0) ∧
        (d.duration = none → r.duration = 60) ∧
        (d.created_at = none → r.created_at = now) := by
  refine ⟨_, list_results_ok conn now limit hq,
    mergeSort_byCreatedAt_pairwise _, ?_⟩
  intro d hd
  refine ⟨normalizeDoc now d, ?_, ?_, ?_, ?_, ?_, ?_⟩
  · rw [(List.mergeSort_perm _ _).mem_iff]
    exact List.mem_map_of_mem _ hd
  all_goals intro hnone
  all_goals simp [normalizeDoc, hnone]

/-- C4 witness: a stored document with every field missing is fetched and
rendered with the defaults. -/
theorem list_results_lenient_and_sorted_witness :
    bareDocConn.queryError = none ∧
    (∃ l, list_results (some bareDocConn) 9 50 = .ok l ∧
      l.Pairwise (fun a b => a.created_at ≤ b.created_at) ∧
      ∀ d ∈ bareDocConn.docs.take (50 : Int).toNat, ∃ r ∈ l,
        (d.wpm = none → r.wpm = 0) ∧
        (d.accuracy = none → r.accuracy = 0) ∧
        (d.mistakes = none → r.mistakes = 0) ∧
        (d.duration = none → r.duration = 60) ∧
        (d.created_at = none → r.created_at = 9)) :=
  ⟨rfl, list_results_lenient_and_sorted bareDocConn 9 50 rfl⟩

/-- Evaluation of the limited fetch from the two-document store. -/
theorem list_results_eval_two :
    list_results (some twoDocConn) 0 1 = .ok [⟨0, 0, 0, 60, 0⟩] := by
  rw [list_results_ok _ _ _ rfl]
  show Except.ok (([(⟨0, 0, 0, 60, 0⟩ : ResultRecord)]).mergeSort
    byCreatedAt) = _
  rw [List.mergeSort_singleton]

/-- C3 witness: a fetch with limit 1 from a store of two records returns one
record, and the omitted limit equals 50. -/
theorem list_results_limit_bound_witness :
    (0 : Int) ≤ 1 ∧
    list_results (some twoDocConn) 0 1 = .ok [⟨0, 0, 0, 60, 0⟩] ∧
    ((([(⟨0, 0, 0, 60, 0⟩ : ResultRecord)] : List ResultRecord).length :
        Int) ≤ 1 ∧
      ∀ (db2 : Option DBConn) (now2 : Time),
        list_results db2 now2 = list_results db2 now2 50) :=
  ⟨by decide, list_results_eval_two,
    list_results_limit_bound (some twoDocConn) 0 1 _ (by decide)
      list_results_eval_two⟩

/-- Evaluation of the fetch from the user-carrying store. -/
theorem list_results_eval_user :
    list_results (some userDocConn) 7 50 = .ok [⟨1, 2, 3, 4, 5⟩] := by
  rw [list_results_ok _ _ _ rfl]
  show Except.ok (([(⟨1, 2, 3, 4, 5⟩ : ResultRecord)]).mergeSort
    byCreatedAt) = _
  rw [List.mergeSort_singleton]

/-- C9 counterexample: a stored document carrying a user_id is returned as a
record whose serialized shape has exactly the five ResultRecord fields;
neither the server-assigned id nor the user_id appears among its keys. -/
theorem result_record_shape_counterexample :
    list_results (some userDocConn) 7 50 = .ok [⟨1, 2, 3, 4, 5⟩] ∧
    (ResultRecord.toJson ⟨1, 2, 3, 4, 5⟩).map Prod.fst =
      ["wpm", "accuracy", "mistakes", "duration", "created_at"] ∧
    "id" ∉ (ResultRecord.toJson ⟨1, 2, 3, 4, 5⟩).map Prod.fst ∧
    "user_id" ∉ (ResultRecord.toJson ⟨1, 2, 3, 4, 5⟩).map Prod.fst :=
  ⟨list_results_eval_user, rfl, by decide, by decide⟩

/-- C9 amended: every record returned by GET /api/results has the
ResultRecord shape: exactly the fields wpm, accuracy, mistakes, duration
and created_at, without the server-assigned id and without user_id. -/
theorem result_record_shape (db : Option DBConn) (now : Time) (limit : Int)
    (l : List ResultRecord) (h : list_results db now limit = .ok l) :
    ∀ r ∈ l, (ResultRecord.toJson r).map Prod.fst =
      ["wpm", "accuracy", "mistakes", "duration", "created_at"] := by
  intro r _
  rfl

/-- C9 amended witness: the concrete fetch from the user-carrying store. -/
theorem result_record_shape_witness :
    list_results (some userDocConn) 7 50 = .ok [⟨1, 2, 3, 4, 5⟩] ∧
    ∀ r ∈ ([(⟨1, 2, 3, 4, 5⟩ : ResultRecord)] : List ResultRecord),
      (ResultRecord.toJson r).map Prod.fst =
        ["wpm", "accuracy", "mistakes", "duration", "created_at"] :=
  ⟨list_results_eval_user,
    result_record_shape (some userDocConn) 7 50 _ list_results_eval_user⟩

/-- C10: the database_url and database_name fields of every GET /test
response report only whether the environment variables are set, for every
state of the handle: the name assigned earlier in the handler is
unconditionally overwritten before returning. -/
theorem test_database_env_flags (db : Option DBConn) (u n : Bool) :
    (test_database db u n).database_url =
      some (if u then "✅ Set" else "❌ Not Set") ∧
    (test_database db u n).database_name =
      some (if n then "✅ Set" else "❌ Not Set") :=
  ⟨rfl, rfl⟩

end TypingBackend
